import Mathlib

/-!
Verification development for the Ant build-menu execution engine
(`src/ant_executor.py`, `src/config.py`, `main.py`).

The Python code is shallowly embedded: XML documents become inductive trees of
attribute records, the file system becomes an explicit existence predicate, the
process environment becomes a partial map `String → Option String`, child
process behaviour becomes an explicit outcome datatype, and Python strings of
decoded output become lists of Unicode code points (`List Nat`, one entry per
Python character).  Python truthiness of an optional string (`None` and `""`
are falsy) is made explicit wherever the source relies on it.
-/

namespace AntBuildMenu

/-- Truthiness of a Python `Optional[str]`: `None` and `""` are falsy. -/
def optTruthy : Option String → Bool
  | none => false
  | some s => s ≠ ""

/-! ## Descriptor parser (`AntExecutor.parse_build_file`, ant_executor.py 66-116) -/

/-- A `<target>` element as seen by the parser: only its `name` and
`description` attributes matter (`target.get('name')`,
`target.get('description', '')`). `none` models an absent attribute. -/
structure TargetElem where
  name : Option String
  description : Option String
  deriving Repr, DecidableEq

/-- The root `<project>` element: its `name` and `default` attributes, plus the
list of all `<target>` elements found by the full-document search
`root.findall('.//target')`, in document order. -/
structure ProjectElem where
  name : Option String
  default : Option String
  targets : List TargetElem
  deriving Repr, DecidableEq

/-- Result dictionary of `parse_build_file`: parallel `targets` and
`descriptions` lists, `default_target`, `project_name`, and the `error` field
(`none` models Python `None`). -/
structure ParseResult where
  targets : List String
  descriptions : List String
  default_target : String
  project_name : String
  error : Option String
  deriving Repr, DecidableEq

/-- The initial `result` dictionary of `parse_build_file` (lines 76-82). -/
def emptyParse : ParseResult :=
  { targets := [], descriptions := [], default_target := "", project_name := ""
    error := none }

/-- The target loop of `parse_build_file` (lines 99-105): for each target element,
`target_name = target.get('name')`; if `target_name` is truthy the name is
appended to `targets` and `target_desc or f"Target: {target_name}"` is appended
to `descriptions`, where `target_desc = target.get('description', '')`. -/
def collectTargets : List TargetElem → List String × List String
  | [] => ([], [])
  | t :: ts =>
    let rest := collectTargets ts
    match t.name with
    | none => rest
    | some n =>
      if n = "" then rest
      else
        (n :: rest.1,
         (if t.description.getD "" = "" then "Target: " ++ n
          else t.description.getD "") :: rest.2)

/-- What happens when `parse_build_file` opens its input path: the file is
missing (`os.path.exists` is false, line 85), `ET.parse` raises `ParseError`
(line 109), reading raises some other exception (line 112), or parsing yields a
well-formed document with root `root`. The carried strings model `str(e)`. -/
inductive FileContent where
  | missing
  | malformed (e : String)
  | readError (e : String)
  | wellFormed (root : ProjectElem)
  deriving Repr, DecidableEq

/-- `True` on the three inputs for which `parse_build_file` reports an error. -/
def FileContent.isErrorCase : FileContent → Bool
  | .wellFormed _ => false
  | _ => true

/-- `AntExecutor.parse_build_file` (lines 66-116). Each exceptional branch fills
`error` and leaves the rest of the initial dictionary untouched; the successful
branch reads `root.get('name', 'Unknown Project')`,
`root.get('default', '')`, and runs the target loop. Totality of this
function is the embedding of "never raises to the caller". -/
def parse_build_file (build_file : String) : FileContent → ParseResult
  | .missing => { emptyParse with error := some ("构建文件不存在: " ++ build_file) }
  | .malformed e => { emptyParse with error := some ("XML解析错误: " ++ e) }
  | .readError e => { emptyParse with error := some ("解析build.xml时发生错误: " ++ e) }
  | .wellFormed root =>
    { targets := (collectTargets root.targets).1
      descriptions := (collectTargets root.targets).2
      default_target := root.default.getD ""
      project_name := root.name.getD "Unknown Project"
      error := none }

theorem collectTargets_append (xs ys : List TargetElem) :
    collectTargets (xs ++ ys) =
      ((collectTargets xs).1 ++ (collectTargets ys).1,
       (collectTargets xs).2 ++ (collectTargets ys).2) := by
  induction xs with
  | nil => simp [collectTargets]
  | cons t ts ih =>
    cases h : t.name with
    | none => simp [collectTargets, h, ih]
    | some n =>
      by_cases hn : n = "" <;> simp [collectTargets, h, hn, ih]

theorem collectTargets_lengths (ts : List TargetElem) :
    (collectTargets ts).1.length = (collectTargets ts).2.length := by
  induction ts with
  | nil => rfl
  | cons t ts ih =>
    cases h : t.name with
    | none => simp [collectTargets, h, ih]
    | some n =>
      by_cases hn : n = "" <;> simp [collectTargets, h, hn, ih]

/-! ## Environment resolution (`Config.get_ant_home` / `Config.get_java_home`,
config.py 157-183) and validation (`AntExecutor.validate_environment`,
ant_executor.py 36-64) -/

/-- Common body of `Config.get_ant_home` and `Config.get_java_home`:
`conf` is the configured value `self.get('paths.*_home')` (`none` when the key
is missing), `envVar` is `os.environ.get(...)`, and `ex` models
`os.path.exists`.  The configured path is returned when it is truthy and
exists; otherwise the environment variable is tried the same way; otherwise
`None`.  (The write-back `self.set(...)` on the environment branch only
mutates the configuration cache and is omitted.) -/
def resolve_home (conf envVar : Option String) (ex : String → Bool) : Option String :=
  match conf with
  | some p =>
    if p ≠ "" && ex p then some p
    else
      match envVar with
      | some q => if q ≠ "" && ex q then some q else none
      | none => none
  | none =>
    match envVar with
    | some q => if q ≠ "" && ex q then some q else none
    | none => none

/-- `Config.get_ant_home` (config.py 157-169). -/
def get_ant_home (confAnt envAnt : Option String) (ex : String → Bool) : Option String :=
  resolve_home confAnt envAnt ex

/-- `Config.get_java_home` (config.py 171-183). -/
def get_java_home (confJava envJava : Option String) (ex : String → Bool) : Option String :=
  resolve_home confJava envJava ex

/-- Windows path join `Path(a) / b` rendered as a string. -/
def winJoin (a b : String) : String := a ++ "\\" ++ b

/-- `AntExecutor.validate_environment` (ant_executor.py 36-64), over the
resolved `self.java_home` and `self.ant_home` and the file system `ex`.
Returns the `(bool, message)` pair of the source. -/
def validate_environment (java_home ant_home : Option String)
    (ex : String → Bool) : Bool × String :=
  if !optTruthy java_home then
    (false, "未找到Java安装路径，请设置JAVA_HOME环境变量")
  else
    let jh := java_home.getD ""
    let java_exe := winJoin jh "bin\\java.exe"
    if !ex java_exe then
      (false, "Java可执行文件不存在: " ++ java_exe)
    else if !optTruthy ant_home then
      (false, "未找到Ant安装路径，请设置ANT_HOME环境变量")
    else
      let ah := ant_home.getD ""
      let ant_launcher := winJoin ah "lib\\ant-launcher.jar"
      let ant_bat := winJoin ah "bin\\ant.bat"
      if !ex ant_launcher && !ex ant_bat then
        (false, "Ant启动器不存在: " ++ ant_launcher ++ " 且 Ant批处理不存在: " ++
          ant_bat ++ "\n请检查 ANT_HOME 是否正确安装。")
      else
        (true, "Ant环境验证通过")

/-- C5: for each toolchain root, resolution returns the explicitly configured
path whenever it is a real (non-empty) path that exists on disk, regardless of
the environment variable (so the configured path wins when both exist); when
neither the configured value nor the environment variable yields an existing
path, resolution returns `none`; and validation then fails deterministically
with the missing-Java (missing runtime) resp. missing-Ant (missing build tool)
error message. -/
theorem C5_resolution_order (conf envv ant : Option String) (ex : String → Bool)
    (p jh : String) :
    (p ≠ "" → ex p = true → resolve_home (some p) envv ex = some p) ∧
    ((∀ q, conf = some q → q = "" ∨ ex q = false) →
     (∀ q, envv = some q → q = "" ∨ ex q = false) →
     resolve_home conf envv ex = none) ∧
    (validate_environment none ant ex =
      (false, "未找到Java安装路径，请设置JAVA_HOME环境变量")) ∧
    (jh ≠ "" → ex (winJoin jh "bin\\java.exe") = true →
      validate_environment (some jh) none ex =
        (false, "未找到Ant安装路径，请设置ANT_HOME环境变量")) := by
  refine ⟨fun hp hex => ?_, fun hc he => ?_, ?_, fun hjh hex => ?_⟩
  · simp [resolve_home, hp, hex]
  · cases conf with
    | none =>
      cases envv with
      | none => rfl
      | some q =>
        rcases he q rfl with h | h <;> simp [resolve_home, h]
    | some q =>
      rcases hc q rfl with h | h <;>
        (cases envv with
        | none => simp [resolve_home, h]
        | some r =>
          rcases he r rfl with h2 | h2 <;> simp [resolve_home, h, h2])
  · rfl
  · simp [validate_environment, optTruthy, hjh, hex]

/-- Witness for C5 on concrete paths and file systems. -/
theorem C5_resolution_order_witness :
    ("C:\\cfg\\ant" ≠ "" ∧
     (fun s => s == "C:\\cfg\\ant" || s == "C:\\env\\ant") "C:\\cfg\\ant" = true ∧
     resolve_home (some "C:\\cfg\\ant") (some "C:\\env\\ant")
       (fun s => s == "C:\\cfg\\ant" || s == "C:\\env\\ant") = some "C:\\cfg\\ant") ∧
    (resolve_home (some "") (some "C:\\gone")
       (fun _ => false) = none) ∧
    (validate_environment none (some "C:\\ant") (fun _ => false) =
      (false, "未找到Java安装路径，请设置JAVA_HOME环境变量")) ∧
    ("C:\\jdk" ≠ "" ∧
     (fun s => s == winJoin "C:\\jdk" "bin\\java.exe") (winJoin "C:\\jdk" "bin\\java.exe") = true ∧
     validate_environment (some "C:\\jdk") none
       (fun s => s == winJoin "C:\\jdk" "bin\\java.exe") =
       (false, "未找到Ant安装路径，请设置ANT_HOME环境变量")) := by
  refine ⟨⟨by decide, by decide, ?_⟩, ?_, ?_, by decide, by decide, ?_⟩
  · exact (C5_resolution_order (some "C:\\cfg\\ant") (some "C:\\env\\ant") none
      (fun s => s == "C:\\cfg\\ant" || s == "C:\\env\\ant") "C:\\cfg\\ant" "x").1
      (by decide) (by decide)
  · exact (C5_resolution_order (some "") (some "C:\\gone") none
      (fun _ => false) "x" "x").2.1
      (by intro q hq; cases hq; exact Or.inl rfl)
      (by intro q hq; cases hq; exact Or.inr rfl)
  · exact (C5_resolution_order none none (some "C:\\ant") (fun _ => false) "x" "x").2.2.1
  · exact (C5_resolution_order none none none
      (fun s => s == winJoin "C:\\jdk" "bin\\java.exe") "x" "C:\\jdk").2.2.2
      (by decide) (by decide)

/-! ## Command construction (`AntExecutor.execute_ant_command`, ant_executor.py
134-152, and `AntExecutor.execute_ant_command_realtime`, 242-258; both build
the command the same way) -/

/-- The command list built before spawning: if `ant_home/lib/ant-launcher.jar`
exists, `[java_exe, "-jar", launcher, "-f", build_file]`, else
`[ant_bat, "-f", build_file]`; then `if target: cmd.append(target)` where a
Python string is truthy iff non-empty. `launcher_exists` models
`ant_launcher.exists()`. -/
def build_ant_cmd (java_home ant_home build_file target : String)
    (launcher_exists : Bool) : List String :=
  let cmd :=
    if launcher_exists then
      [winJoin java_home "bin\\java.exe", "-jar",
       winJoin ant_home "lib\\ant-launcher.jar", "-f", build_file]
    else
      [winJoin ant_home "bin\\ant.bat", "-f", build_file]
  if target ≠ "" then cmd ++ [target] else cmd

/-! ## Child environment (`execute_ant_command`, ant_executor.py 154-167, and
`execute_ant_command_realtime`, 260-270; identical logic) -/

/-- Splits a character list at every whitespace character (helper for Python
`str.split()`). -/
def wsSplitAux : List Char → List Char → List String
  | [], acc => [String.mk acc.reverse]
  | c :: cs, acc =>
    if c.isWhitespace then String.mk acc.reverse :: wsSplitAux cs []
    else wsSplitAux cs (c :: acc)

/-- Python `str.split()` with no separator: split on whitespace, dropping the
empty pieces (so runs of whitespace count as one separator and there are no
empty tokens). -/
def python_split (s : String) : List String :=
  (wsSplitAux s.toList []).filter (fun t => t ≠ "")

/-- Python `str.startswith`. -/
def pyStartsWith (t p : String) : Bool := p.toList.isPrefixOf t.toList

/-- Python truthiness of `s.strip()`: false exactly when every character of `s`
is whitespace (stripping both ends leaves nothing). -/
def pyStripTruthy (s : String) : Bool := !s.toList.all Char.isWhitespace

/-- The token filter of the option-cleaning loop: keep the whitespace-separated
tokens of `v` that do not start with `-Dsun.jnu.encoding=`
(`[t for t in tokens if not t.startswith('-Dsun.jnu.encoding=')]`). -/
def filter_jnu (v : String) : List String :=
  (python_split v).filter (fun t => !pyStartsWith t "-Dsun.jnu.encoding=")

/-- Python `sep.join(parts)`: the empty string on an empty list, otherwise the
first part followed by `sep ++ part` for each later part. -/
def pyJoin (sep : String) : List String → String
  | [] => ""
  | t :: ts => ts.foldl (fun acc u => acc ++ sep ++ u) t

/-- One iteration of the cleaning loop on a present, truthy variable value:
`env[opt_var] = ' '.join(filtered)`, then `env.pop(opt_var)` if the joined
string is whitespace-blank (`if not env[opt_var].strip()`). A falsy (empty)
value is left untouched by the `if opt_var in env and env[opt_var]` guard. -/
def stripOptVar (v : String) : Option String :=
  if v = "" then some v
  else
    let joined := pyJoin " " (filter_jnu v)
    if pyStripTruthy joined then some joined else none

/-- The three JVM option variables cleaned by the loop. -/
def isJvmOptVar (k : String) : Bool :=
  k = "JAVA_TOOL_OPTIONS" || k = "_JAVA_OPTIONS" || k = "JDK_JAVA_OPTIONS"

/-- The child process environment as a partial map: `env = os.environ.copy()`,
then `env['JAVA_HOME'] = self.java_home`, `env['ANT_HOME'] = self.ant_home`,
then the cleaning loop over the three JVM option variables. -/
def childEnv (parent : String → Option String) (java_home ant_home : String)
    (k : String) : Option String :=
  if k = "JAVA_HOME" then some java_home
  else if k = "ANT_HOME" then some ant_home
  else if isJvmOptVar k then
    match parent k with
    | none => none
    | some v => stripOptVar v
  else parent k

theorem string_data_append (a b : String) : (a ++ b).data = a.data ++ b.data := by
  cases a
  cases b
  rfl

/-- Every string produced by the whitespace splitter consists of
non-whitespace characters (given the accumulator does). -/
theorem wsSplitAux_mem_no_ws : ∀ (cs acc : List Char),
    (∀ c ∈ acc, c.isWhitespace = false) →
    ∀ t ∈ wsSplitAux cs acc, ∀ c ∈ t.data, c.isWhitespace = false := by
  intro cs
  induction cs with
  | nil =>
    intro acc hacc t ht c hc
    simp only [wsSplitAux, List.mem_singleton] at ht
    subst ht
    exact hacc c (List.mem_reverse.mp hc)
  | cons d cs ih =>
    intro acc hacc t ht c hc
    simp only [wsSplitAux] at ht
    by_cases hd : d.isWhitespace = true
    · rw [if_pos hd] at ht
      rcases List.mem_cons.mp ht with h | h
      · subst h
        exact hacc c (List.mem_reverse.mp hc)
      · exact ih [] (by simp) t h c hc
    · rw [if_neg hd] at ht
      refine ih (d :: acc) ?_ t ht c hc
      intro x hx
      rcases List.mem_cons.mp hx with rfl | hx
      · exact Bool.not_eq_true _ ▸ (by simpa using hd)
      · exact hacc x hx

/-- Tokens of Python `str.split()` are non-empty and contain no whitespace. -/
theorem python_split_tokens (s : String) :
    ∀ t ∈ python_split s, t ≠ "" ∧ ∀ c ∈ t.data, c.isWhitespace = false := by
  intro t ht
  rw [python_split, List.mem_filter] at ht
  refine ⟨by simpa using ht.2, ?_⟩
  exact wsSplitAux_mem_no_ws s.toList [] (by simp) t ht.1

/-- The first argument of the join fold is a prefix of the result. -/
theorem pyJoin_foldl_data (sep : String) (ts : List String) :
    ∀ acc : String, ∃ r,
      (ts.foldl (fun a u => a ++ sep ++ u) acc).data = acc.data ++ r := by
  induction ts with
  | nil => exact fun acc => ⟨[], by simp⟩
  | cons u ts ih =>
    intro acc
    obtain ⟨r, hr⟩ := ih (acc ++ sep ++ u)
    refine ⟨sep.data ++ u.data ++ r, ?_⟩
    rw [List.foldl_cons, hr, string_data_append, string_data_append]
    simp [List.append_assoc]

/-- A space-join headed by a non-empty all-non-whitespace token passes the
`.strip()` truthiness test. -/
theorem pyStripTruthy_pyJoin (ts : List String) (t : String) (ht0 : t ≠ "")
    (htw : ∀ c ∈ t.data, c.isWhitespace = false) :
    pyStripTruthy (pyJoin " " (t :: ts)) = true := by
  obtain ⟨r, hr⟩ := pyJoin_foldl_data " " ts t
  have hdata : t.data ≠ [] := by
    intro h
    apply ht0
    cases t
    simp only at h
    subst h
    rfl
  obtain ⟨c0, cs0, hc0⟩ := List.exists_cons_of_ne_nil hdata
  rw [pyStripTruthy, Bool.not_eq_true']
  cases hall : (pyJoin " " (t :: ts)).toList.all Char.isWhitespace with
  | false => rfl
  | true =>
    exfalso
    have hc0mem : c0 ∈ (pyJoin " " (t :: ts)).toList := by
      show c0 ∈ (pyJoin " " (t :: ts)).data
      rw [pyJoin, hr]
      exact List.mem_append_left _ (hc0 ▸ List.mem_cons_self c0 cs0)
    have := List.all_eq_true.mp hall c0 hc0mem
    rw [htw c0 (hc0 ▸ List.mem_cons_self c0 cs0)] at this
    exact Bool.false_ne_true this

/-- When at least one token survives the filter, the cleaning loop keeps the
variable, rewritten to the space-join of the surviving tokens. -/
theorem stripOptVar_keeps (v : String) (hv : v ≠ "") (hf : filter_jnu v ≠ []) :
    stripOptVar v = some (pyJoin " " (filter_jnu v)) := by
  obtain ⟨t, ts, hts⟩ : ∃ t ts, filter_jnu v = t :: ts := by
    cases h : filter_jnu v with
    | nil => exact absurd h hf
    | cons a b => exact ⟨a, b, rfl⟩
  have hmem : t ∈ python_split v := by
    have : t ∈ filter_jnu v := hts ▸ List.mem_cons_self t ts
    exact List.mem_of_mem_filter this
  obtain ⟨ht0, htw⟩ := python_split_tokens v t hmem
  rw [stripOptVar, if_neg hv]
  simp only [hts]
  rw [if_pos (pyStripTruthy_pyJoin ts t ht0 htw)]

/-- C6: the child environment equals the inherited parent environment, except
that `JAVA_HOME` and `ANT_HOME` are overridden to the resolved roots, and each
of `JAVA_TOOL_OPTIONS`, `_JAVA_OPTIONS`, `JDK_JAVA_OPTIONS` is rewritten to
the join of its whitespace-separated tokens with every token starting with
`-Dsun.jnu.encoding=` removed: kept with exactly that joined value when some
token survives, deleted from the environment (never left as the empty string)
when no token survives; an absent option variable stays absent, and every
other variable is passed through unchanged. -/
theorem C6_child_environment (parent : String → Option String)
    (jh ah k : String) (v : String) :
    (childEnv parent jh ah "JAVA_HOME" = some jh) ∧
    (childEnv parent jh ah "ANT_HOME" = some ah) ∧
    (k ≠ "JAVA_HOME" → k ≠ "ANT_HOME" → isJvmOptVar k = false →
      childEnv parent jh ah k = parent k) ∧
    (k ≠ "JAVA_HOME" → k ≠ "ANT_HOME" → isJvmOptVar k = true →
      parent k = none → childEnv parent jh ah k = none) ∧
    (k ≠ "JAVA_HOME" → k ≠ "ANT_HOME" → isJvmOptVar k = true →
      parent k = some v → v ≠ "" → filter_jnu v ≠ [] →
      childEnv parent jh ah k = some (pyJoin " " (filter_jnu v))) ∧
    (k ≠ "JAVA_HOME" → k ≠ "ANT_HOME" → isJvmOptVar k = true →
      parent k = some v → v ≠ "" → filter_jnu v = [] →
      childEnv parent jh ah k = none) ∧
    (k ≠ "JAVA_HOME" → k ≠ "ANT_HOME" → isJvmOptVar k = true →
      parent k = some v → v ≠ "" →
      childEnv parent jh ah k ≠ some "") := by
  refine ⟨rfl, rfl, fun h1 h2 h3 => ?_, fun h1 h2 h3 hp => ?_,
    fun h1 h2 h3 hp hv hf => ?_, fun h1 h2 h3 hp hv hf => ?_,
    fun h1 h2 h3 hp hv => ?_⟩
  · simp [childEnv, h1, h2, h3]
  · simp [childEnv, h1, h2, h3, hp]
  · simp only [childEnv, h1, h2, h3, hp, reduceIte]
    exact stripOptVar_keeps v hv hf
  · simp only [childEnv, h1, h2, h3, hp, reduceIte]
    rw [stripOptVar, if_neg hv, hf]
    rfl
  · simp only [childEnv, h1, h2, h3, hp, reduceIte]
    rw [stripOptVar, if_neg hv]
    by_cases hj : pyStripTruthy (pyJoin " " (filter_jnu v))
    · simp only [hj, reduceIte, ne_eq, Option.some.injEq]
      intro he
      rw [he] at hj
      exact absurd hj (by decide)
    · simp [hj]

/-- Witness for C6 at a concrete parent environment; in the kept-value case
the resolved value is evaluated concretely to `"-Xmx1g"`. -/
theorem C6_child_environment_witness :
    (childEnv (fun _ => some "x") "C:\\jdk" "C:\\ant" "JAVA_HOME" = some "C:\\jdk") ∧
    (childEnv (fun _ => some "x") "C:\\jdk" "C:\\ant" "ANT_HOME" = some "C:\\ant") ∧
    (childEnv (fun _ => some "x") "C:\\jdk" "C:\\ant" "PATH" = some "x") ∧
    (childEnv (fun _ => none) "C:\\jdk" "C:\\ant" "JDK_JAVA_OPTIONS" = none) ∧
    (filter_jnu "-Dsun.jnu.encoding=GBK -Xmx1g" ≠ [] ∧
     pyJoin " " (filter_jnu "-Dsun.jnu.encoding=GBK -Xmx1g") = "-Xmx1g" ∧
     childEnv (fun k => if k = "_JAVA_OPTIONS" then some "-Dsun.jnu.encoding=GBK -Xmx1g" else none)
        "C:\\jdk" "C:\\ant" "_JAVA_OPTIONS" = some "-Xmx1g") ∧
    (filter_jnu "-Dsun.jnu.encoding=UTF-8" = [] ∧
     childEnv (fun k => if k = "JAVA_TOOL_OPTIONS" then some "-Dsun.jnu.encoding=UTF-8" else none)
        "C:\\jdk" "C:\\ant" "JAVA_TOOL_OPTIONS" = none) ∧
    (childEnv (fun k => if k = "JDK_JAVA_OPTIONS" then some "-Dsun.jnu.encoding=GBK -Xmx1g" else none)
        "C:\\jdk" "C:\\ant" "JDK_JAVA_OPTIONS" ≠ some "") := by
  refine ⟨(C6_child_environment (fun _ => some "x") "C:\\jdk" "C:\\ant" "K" "v").1,
    (C6_child_environment (fun _ => some "x") "C:\\jdk" "C:\\ant" "K" "v").2.1,
    (C6_child_environment (fun _ => some "x") "C:\\jdk" "C:\\ant" "PATH" "v").2.2.1
      (by decide) (by decide) (by decide),
    (C6_child_environment (fun _ => none) "C:\\jdk" "C:\\ant" "JDK_JAVA_OPTIONS" "v").2.2.2.1
      (by decide) (by decide) (by decide) rfl,
    ⟨by decide, by decide, ?_⟩, ⟨by decide, ?_⟩, ?_⟩
  · have h := (C6_child_environment
      (fun k => if k = "_JAVA_OPTIONS" then some "-Dsun.jnu.encoding=GBK -Xmx1g" else none)
      "C:\\jdk" "C:\\ant" "_JAVA_OPTIONS" "-Dsun.jnu.encoding=GBK -Xmx1g").2.2.2.2.1
      (by decide) (by decide) (by decide) (by simp) (by decide) (by decide)
    rw [h]
    decide
  · exact (C6_child_environment
      (fun k => if k = "JAVA_TOOL_OPTIONS" then some "-Dsun.jnu.encoding=UTF-8" else none)
      "C:\\jdk" "C:\\ant" "JAVA_TOOL_OPTIONS" "-Dsun.jnu.encoding=UTF-8").2.2.2.2.2.1
      (by decide) (by decide) (by decide) (by simp) (by decide) (by decide)
  · exact (C6_child_environment
      (fun k => if k = "JDK_JAVA_OPTIONS" then some "-Dsun.jnu.encoding=GBK -Xmx1g" else none)
      "C:\\jdk" "C:\\ant" "JDK_JAVA_OPTIONS" "-Dsun.jnu.encoding=GBK -Xmx1g").2.2.2.2.2.2
      (by decide) (by decide) (by decide) (by simp) (by decide)

/-- C4: the command prefers the portable launcher jar (`java -jar
ant-launcher.jar -f file`) whenever it exists, falls back to `bin\ant.bat -f
file` only when it is absent, and appends the requested target as a positional
argument exactly when it is non-empty — so requesting target `""` passes no
target argument at all (in particular the command never depends on any
descriptor default). -/
theorem C4_command_construction (jh ah bf t : String) (le : Bool) :
    build_ant_cmd jh ah bf t le =
      (if le then
        [winJoin jh "bin\\java.exe", "-jar", winJoin ah "lib\\ant-launcher.jar",
         "-f", bf]
       else [winJoin ah "bin\\ant.bat", "-f", bf]) ++
      (if t = "" then [] else [t]) := by
  by_cases ht : t = "" <;> cases le <;> simp [build_ant_cmd, ht]

/-! ## Line decoder (`decode_bytes` inside `execute_ant_command_realtime`,
ant_executor.py 297-315)

Byte strings are embedded as `List Nat` (one entry per byte) and decoded
Python strings as `List Nat` of Unicode code points (one entry per Python
character, so `List.length` is Python `len`).  The Python codecs invoked by
`bytes.decode` are standard-library behaviour external to the repository; they
are modelled here as step functions that decode one character from the front
of the byte list, following the spec's description of the fallback list:
strict UTF-8 first, then a legacy multi-byte regional encoding (GBK, of which
`cp936` is an alias in CPython), then the single-byte `latin1` fallback that
can decode any byte sequence. -/

/-- UTF-8 continuation byte. -/
def isCont (b : Nat) : Bool := 0x80 ≤ b && b ≤ 0xBF

/-- Valid second byte of a three-byte UTF-8 sequence (excludes overlong forms
for `0xE0` and surrogates for `0xED`). -/
def utf8Trail3Ok (b1 b2 : Nat) : Bool :=
  if b1 = 0xE0 then 0xA0 ≤ b2 && b2 ≤ 0xBF
  else if b1 = 0xED then 0x80 ≤ b2 && b2 ≤ 0x9F
  else isCont b2

/-- Valid second byte of a four-byte UTF-8 sequence (excludes overlong forms
for `0xF0` and code points above `U+10FFFF` for `0xF4`). -/
def utf8Trail4Ok (b1 b2 : Nat) : Bool :=
  if b1 = 0xF0 then 0x90 ≤ b2 && b2 ≤ 0xBF
  else if b1 = 0xF4 then 0x80 ≤ b2 && b2 ≤ 0x8F
  else isCont b2

/-- Strict UTF-8: decode one character from the front of the byte list,
returning its code point and the remaining bytes, or `none` on invalid or
truncated input (the strictness CPython's `bytes.decode('utf-8')` applies). -/
def utf8DecodeOne : List Nat → Option (Nat × List Nat)
  | [] => none
  | b1 :: rest =>
    if b1 < 0x80 then some (b1, rest)
    else if b1 < 0xC2 then none
    else if b1 ≤ 0xDF then
      match rest with
      | b2 :: r =>
        if isCont b2 then some ((b1 - 0xC0) * 64 + (b2 - 0x80), r) else none
      | [] => none
    else if b1 ≤ 0xEF then
      match rest with
      | b2 :: b3 :: r =>
        if utf8Trail3Ok b1 b2 && isCont b3 then
          some (((b1 - 0xE0) * 64 + (b2 - 0x80)) * 64 + (b3 - 0x80), r)
        else none
      | _ => none
    else if b1 ≤ 0xF4 then
      match rest with
      | b2 :: b3 :: b4 :: r =>
        if utf8Trail4Ok b1 b2 && isCont b3 && isCont b4 then
          some ((((b1 - 0xF0) * 64 + (b2 - 0x80)) * 64 + (b3 - 0x80)) * 64 + (b4 - 0x80), r)
        else none
      | _ => none
    else none

/-- GBK (= `cp936` in CPython): an ASCII byte decodes to itself; a lead byte in
`0x81`-`0xFE` followed by a trail byte in `0x40`-`0xFE` other than `0x7F`
decodes to one double-byte character.  The repository never inspects which
character that is, so the pair is represented injectively as
`0x10000 + lead * 0x100 + trail`; the few unassigned pairs the real table also
rejects are accepted here, which can only make this decoder succeed where
CPython would fall through to `latin1` — the per-character byte consumption,
which is all the claims depend on, is exact. -/
def gbkDecodeOne : List Nat → Option (Nat × List Nat)
  | [] => none
  | b1 :: rest =>
    if b1 ≤ 0x7F then some (b1, rest)
    else if 0x81 ≤ b1 && b1 ≤ 0xFE then
      match rest with
      | b2 :: r =>
        if (0x40 ≤ b2 && b2 ≤ 0xFE) && b2 ≠ 0x7F then
          some (0x10000 + b1 * 0x100 + b2, r)
        else none
      | [] => none
    else none

/-- `latin1`: every byte decodes to the code point of the same value; this
codec never fails and emits exactly one character per byte (the spec's "pure
substitution" single-byte fallback). -/
def latin1DecodeOne : List Nat → Option (Nat × List Nat)
  | [] => none
  | b :: rest => some (b, rest)

/-- `ascii`: bytes up to `0x7F` decode to themselves, anything else fails. -/
def asciiDecodeOne : List Nat → Option (Nat × List Nat)
  | [] => none
  | b :: rest => if b ≤ 0x7F then some (b, rest) else none

/-- Runs a one-character decode step over the whole byte list, as
`bytes.decode` does: all bytes decode or the whole decode fails.  The
`r.length < l.length` guard only serves the termination argument; every step
above consumes at least one byte, so the `none` branch of the guard is
unreachable (see the `*_consumes` lemmas). -/
def runDecoder (step : List Nat → Option (Nat × List Nat)) :
    List Nat → Option (List Nat)
  | [] => some []
  | l@(_ :: _) =>
    match step l with
    | none => none
    | some (c, r) =>
      if _hr : r.length < l.length then
        (runDecoder step r).map (fun s => c :: s)
      else none
termination_by l => l.length

/-- Runs a one-character decode step in `errors='replace'` mode: where the
step fails, one replacement character `U+FFFD` is emitted and one byte is
skipped.  (CPython replaces each maximal invalid subsequence with a single
`U+FFFD`, which can merge several skipped bytes into one replacement; that can
only shorten the result further, and this branch is unreachable in
`decode_bytes` anyway because `latin1` never fails.)  As in `runDecoder` the
guard only serves termination. -/
def runReplace (step : List Nat → Option (Nat × List Nat)) :
    List Nat → List Nat
  | [] => []
  | l@(_ :: rest) =>
    match step l with
    | none => 0xFFFD :: runReplace step rest
    | some (c, r) =>
      if _hr : r.length < l.length then c :: runReplace step r
      else c :: runReplace step rest
termination_by l => l.length

theorem utf8DecodeOne_consumes : ∀ (l : List Nat) (c : Nat) (r : List Nat),
    utf8DecodeOne l = some (c, r) → r.length < l.length := by
  intro l c r h
  cases l with
  | nil => simp [utf8DecodeOne] at h
  | cons b1 rest =>
    simp only [utf8DecodeOne] at h
    repeat' split at h
    all_goals simp_all
    all_goals omega

theorem gbkDecodeOne_consumes : ∀ (l : List Nat) (c : Nat) (r : List Nat),
    gbkDecodeOne l = some (c, r) → r.length < l.length := by
  intro l c r h
  cases l with
  | nil => simp [gbkDecodeOne] at h
  | cons b1 rest =>
    simp only [gbkDecodeOne] at h
    repeat' split at h
    all_goals simp_all
    all_goals omega

theorem asciiDecodeOne_consumes : ∀ (l : List Nat) (c : Nat) (r : List Nat),
    asciiDecodeOne l = some (c, r) → r.length < l.length := by
  intro l c r h
  cases l with
  | nil => simp [asciiDecodeOne] at h
  | cons b1 rest =>
    simp only [asciiDecodeOne] at h
    split at h
    all_goals simp_all

theorem latin1DecodeOne_consumes : ∀ (l : List Nat) (c : Nat) (r : List Nat),
    latin1DecodeOne l = some (c, r) → r.length < l.length := by
  intro l c r h
  cases l with
  | nil => simp [latin1DecodeOne] at h
  | cons b1 rest => simp_all [latin1DecodeOne]

/-- A successful full decode emits at most one character per input byte. -/
theorem runDecoder_length (step : List Nat → Option (Nat × List Nat)) :
    ∀ l s, runDecoder step l = some s → s.length ≤ l.length := by
  intro l
  induction l using runDecoder.induct step with
  | case1 => intro s h; rw [runDecoder] at h; cases h; exact Nat.le_refl _
  | case2 b rest hstep =>
    intro s h; rw [runDecoder.eq_def] at h; simp [hstep] at h
  | case3 b rest c r hstep hr ih =>
    intro s h
    rw [runDecoder.eq_def] at h
    simp only [hstep, hr, dif_pos, Option.map_eq_some'] at h
    obtain ⟨t, ht, rfl⟩ := h
    have hlt := ih t ht
    simp only [List.length_cons] at *
    omega
  | case4 b rest c r hstep hr =>
    intro s h
    rw [runDecoder.eq_def] at h
    simp only [hstep] at h
    rw [dif_neg hr] at h
    exact absurd h (by simp)

/-- A replace-mode decode emits at most one character per input byte. -/
theorem runReplace_length (step : List Nat → Option (Nat × List Nat)) :
    ∀ l, (runReplace step l).length ≤ l.length := by
  intro l
  induction l using runReplace.induct step with
  | case1 => rw [runReplace]
  | case2 b rest hstep ih =>
    rw [runReplace.eq_def]
    simp only [hstep, List.length_cons]
    omega
  | case3 b rest c r hstep hr ih =>
    rw [runReplace.eq_def]
    simp only [hstep]
    rw [dif_pos hr]
    simp only [List.length_cons] at hr ⊢
    omega
  | case4 b rest c r hstep hr ih =>
    rw [runReplace.eq_def]
    simp only [hstep]
    rw [dif_neg hr]
    simp only [List.length_cons]
    omega

/-- `latin1` decodes every byte sequence, to exactly one character per byte
(and the identity on code-point values). -/
theorem latin1_total : ∀ l : List Nat, runDecoder latin1DecodeOne l = some l := by
  intro l
  induction l with
  | nil => rw [runDecoder]
  | cons b rest ih =>
    rw [runDecoder.eq_def]
    simp [latin1DecodeOne, ih, Nat.lt_succ_self]

/-- The encodings `decode_bytes` tries, in order (line 303):
`['utf-8', 'gbk', 'cp936', 'latin1', 'ascii']`.  In CPython `cp936` is an
alias of `gbk`, so both name the same codec. -/
inductive PyEncoding where
  | utf8 | gbk | cp936 | latin1 | ascii
  deriving Repr, DecidableEq

/-- `byte_data.decode(encoding)` for each encoding in the list. -/
def decodeWith : PyEncoding → List Nat → Option (List Nat)
  | .utf8 => runDecoder utf8DecodeOne
  | .gbk => runDecoder gbkDecodeOne
  | .cp936 => runDecoder gbkDecodeOne
  | .latin1 => runDecoder latin1DecodeOne
  | .ascii => runDecoder asciiDecodeOne

/-- The ordered encoding list of `decode_bytes`. -/
def decode_bytes_encodings : List PyEncoding :=
  [.utf8, .gbk, .cp936, .latin1, .ascii]

/-- The `for encoding in encodings: try ... except: continue` loop: the result
of the first encoding that decodes, `none` if all fail. -/
def firstSuccess : List PyEncoding → List Nat → Option (List Nat)
  | [], _ => none
  | e :: es, b =>
    match decodeWith e b with
    | some s => some s
    | none => firstSuccess es b

/-- `byte_data.decode('utf-8', errors='replace')`, the final fallback of
`decode_bytes` (line 313; the nested `except` falling back to
latin1-with-replace cannot trigger, since replace-mode decoding never
raises). -/
def utf8ReplaceDecode (b : List Nat) : List Nat := runReplace utf8DecodeOne b

/-- `decode_bytes` (ant_executor.py 297-315): empty input returns `""`;
otherwise the first encoding in the list that decodes wins; if all fail, the
replace-mode fallback is used. -/
def decode_bytes (b : List Nat) : List Nat :=
  if b.isEmpty then []
  else
    match firstSuccess decode_bytes_encodings b with
    | some s => s
    | none => utf8ReplaceDecode b

theorem firstSuccess_length : ∀ (es : List PyEncoding) (b s : List Nat),
    firstSuccess es b = some s → s.length ≤ b.length := by
  intro es
  induction es with
  | nil => intro b s h; simp [firstSuccess] at h
  | cons e es ih =>
    intro b s h
    simp only [firstSuccess] at h
    cases he : decodeWith e b with
    | none => rw [he] at h; exact ih b s h
    | some t =>
      rw [he] at h
      cases h
      cases e <;> exact runDecoder_length _ b s he

/-- C3: for every byte sequence, `decode_bytes` succeeds — some encoding in
its list decodes (already `latin1` decodes everything, so the replace fallback
is unreachable and no exception can escape) — and the result is no longer than
the pure byte-substitution transform (`latin1`), which emits exactly one
character per input byte: `decode_bytes` emits at most one character per input
byte. -/
theorem C3_decode_never_raises (b : List Nat) :
    (firstSuccess decode_bytes_encodings b).isSome = true ∧
    runDecoder latin1DecodeOne b = some b ∧
    (decode_bytes b).length ≤ b.length := by
  have hlat := latin1_total b
  refine ⟨?_, hlat, ?_⟩
  · cases h1 : runDecoder utf8DecodeOne b with
    | some s => simp [firstSuccess, decodeWith, decode_bytes_encodings, h1]
    | none =>
      cases h2 : runDecoder gbkDecodeOne b with
      | some s => simp [firstSuccess, decodeWith, decode_bytes_encodings, h1, h2]
      | none =>
        simp [firstSuccess, decodeWith, decode_bytes_encodings, h1, h2, hlat]
  · rw [decode_bytes]
    by_cases hb : b.isEmpty = true
    · simp [hb]
    · simp only [hb, if_false]
      cases hfs : firstSuccess decode_bytes_encodings b with
      | some s => exact firstSuccess_length _ b s hfs
      | none => exact runReplace_length utf8DecodeOne b

/-! ## Lifecycle: wait / timeout (`execute_ant_command_realtime`, ant_executor.py
354-380) and cancellation (`AntBuildGUI.cancel_build`, main.py 383-417) -/

/-- Outcome of `process.wait(timeout=self.timeout)`: the child exited with a
return code, or `subprocess.TimeoutExpired` was raised. -/
inductive WaitOutcome where
  | exited (returncode : Int)
  | timedOut
  deriving Repr, DecidableEq

/-- The terminal cause of an invocation, tagging which branch of the source
handled termination (the spec's `terminationReason`). -/
inductive TerminationReason where
  | Completed
  | TimedOut
  | Cancelled
  | LaunchError
  deriving Repr, DecidableEq

/-- What the wait branch of `execute_ant_command_realtime` produces: the
returned success flag, the branch taken, whether `process.kill()` was called,
and the summary lines pushed to `output_callback` as `(line, is_error)`
pairs. `elapsedStr` stands for the wall-clock string `f"{execution_time:.2f}"`. -/
structure RealtimeOutcome where
  success : Bool
  reason : TerminationReason
  killed : Bool
  sinkMessages : List (String × Bool)
  deriving Repr, DecidableEq

/-- The wait/timeout branch of `execute_ant_command_realtime` (lines 354-380):
on normal exit, `success = (process.returncode == 0)` and a success/failure
summary line is emitted; on `TimeoutExpired`, `process.kill()` is called, a
timeout line carrying `self.timeout` is emitted, and `False` is returned. -/
def execute_realtime_wait (timeout : Nat) (elapsedStr : String) :
    WaitOutcome → RealtimeOutcome
  | .exited rc =>
    { success := rc == 0
      reason := .Completed
      killed := false
      sinkMessages :=
        if rc == 0 then
          [("\n✅ Ant构建成功 (耗时: " ++ elapsedStr ++ "秒)\n", false)]
        else
          [("\n❌ Ant构建失败 (返回码: " ++ toString rc ++ ")\n", true)] }
  | .timedOut =>
    { success := false
      reason := .TimedOut
      killed := true
      sinkMessages :=
        [("\n⏰ Ant构建超时 (超过" ++ toString timeout ++ "秒)\n", true)] }

/-- C7: when the child exits normally (no timeout), the invocation takes the
`Completed` branch and reports success exactly when the exit status is zero;
in particular exit code 0 succeeds and exit code 1 fails. -/
theorem C7_exit_code_semantics (timeout : Nat) (es : String) (rc : Int) :
    ((execute_realtime_wait timeout es (.exited rc)).reason =
        TerminationReason.Completed) ∧
    ((execute_realtime_wait timeout es (.exited rc)).success = true ↔ rc = 0) ∧
    ((execute_realtime_wait timeout es (.exited 0)).success = true) ∧
    ((execute_realtime_wait timeout es (.exited 1)).success = false) := by
  refine ⟨rfl, ?_, rfl, rfl⟩
  simp [execute_realtime_wait]

/-- C8: when the child does not exit within the configured timeout, it is
forcibly killed, the invocation is reported as failed, and the failure line
delivered to the sink is an error-tagged message carrying the configured
timeout value. -/
theorem C8_timeout_kill (timeout : Nat) (es : String) :
    ((execute_realtime_wait timeout es .timedOut).success = false) ∧
    ((execute_realtime_wait timeout es .timedOut).killed = true) ∧
    ((execute_realtime_wait timeout es .timedOut).reason =
        TerminationReason.TimedOut) ∧
    ((execute_realtime_wait timeout es .timedOut).sinkMessages =
      [("\n⏰ Ant构建超时 (超过" ++ toString timeout ++ "秒)\n", true)]) :=
  ⟨rfl, rfl, rfl, rfl⟩

/-- The process-control actions `cancel_build` can perform on the child. -/
inductive CancelAction where
  | terminate
  | waitGrace (seconds : Nat)
  | kill
  deriving Repr, DecidableEq

/-- `AntBuildGUI.cancel_build` (main.py 383-417) as the sequence of
process-control actions it performs: nothing unless `self.is_building` and
`self.current_process` are both set (the invocation is `Running`; every
terminal path clears both flags first), otherwise `terminate()`, then
`wait(timeout=5)`, then `kill()` only when that wait raised
`TimeoutExpired` (`exitsWithinGrace = false`). -/
def cancel_build (is_building has_process exitsWithinGrace : Bool) :
    List CancelAction :=
  if is_building && has_process then
    [.terminate, .waitGrace 5] ++ (if exitsWithinGrace then [] else [.kill])
  else []

/-- C9: while `Running`, `cancel_build` sends a graceful terminate, waits up to
a 5-second grace period, and force-kills only when the child has not exited by
then; when not `Running` (including after any terminal state, which clears the
flags) it performs no action at all — totality of the function embeds "does
not error". -/
theorem C9_cancel_semantics (g p b e : Bool) :
    (cancel_build true true true = [.terminate, .waitGrace 5]) ∧
    (cancel_build true true false = [.terminate, .waitGrace 5, .kill]) ∧
    (cancel_build true true g = .terminate :: .waitGrace 5 ::
      (if g then [] else [.kill])) ∧
    (cancel_build false p e = []) ∧
    (cancel_build b false e = []) := by
  refine ⟨rfl, rfl, by cases g <;> rfl, rfl, ?_⟩
  cases b <;> rfl

/-- C1: in `parse_build_file`, a root with no `name` attribute yields project
name `"Unknown Project"`; a root with no `default` attribute yields default
target `""`; a target element with no `name` attribute contributes no entry;
and a named (non-empty-name) target with no `description` attribute
contributes the synthesized description `"Target: {name}"`. -/
theorem C1_parse_defaults (bf : String) (root : ProjectElem)
    (ts₁ ts₂ : List TargetElem) (d : Option String) (n : String) :
    (root.name = none →
      (parse_build_file bf (.wellFormed root)).project_name = "Unknown Project") ∧
    (root.default = none →
      (parse_build_file bf (.wellFormed root)).default_target = "") ∧
    (collectTargets (ts₁ ++ ⟨none, d⟩ :: ts₂) = collectTargets (ts₁ ++ ts₂)) ∧
    (n ≠ "" →
      collectTargets (ts₁ ++ ⟨some n, none⟩ :: ts₂) =
        ((collectTargets ts₁).1 ++ n :: (collectTargets ts₂).1,
         (collectTargets ts₁).2 ++ ("Target: " ++ n) :: (collectTargets ts₂).2)) := by
  refine ⟨fun h => ?_, fun h => ?_, ?_, fun hn => ?_⟩
  · simp [parse_build_file, h]
  · simp [parse_build_file, h]
  · rw [collectTargets_append, collectTargets_append]
    simp [collectTargets]
  · rw [collectTargets_append]
    simp [collectTargets, hn]

/-- Witness for C1 at a concrete document: root with no attributes, an unnamed
target, and a named target `"build"` with no description. -/
theorem C1_parse_defaults_witness :
    (parse_build_file "b.xml" (.wellFormed ⟨none, none, []⟩)).project_name =
      "Unknown Project" ∧
    (parse_build_file "b.xml" (.wellFormed ⟨none, none, []⟩)).default_target = "" ∧
    collectTargets ([⟨some "a", some "da"⟩] ++ ⟨none, some "x"⟩ :: [⟨some "c", none⟩]) =
      collectTargets ([⟨some "a", some "da"⟩] ++ [⟨some "c", none⟩]) ∧
    collectTargets ([⟨some "a", some "da"⟩] ++ ⟨some "build", none⟩ :: [⟨some "c", none⟩]) =
      ((collectTargets [⟨some "a", some "da"⟩]).1 ++
         "build" :: (collectTargets [⟨some "c", none⟩]).1,
       (collectTargets [⟨some "a", some "da"⟩]).2 ++
         ("Target: " ++ "build") :: (collectTargets [⟨some "c", none⟩]).2) := by
  have h := C1_parse_defaults "b.xml" ⟨none, none, []⟩
    [⟨some "a", some "da"⟩] [⟨some "c", none⟩] (some "x") "build"
  exact ⟨h.1 rfl, h.2.1 rfl, h.2.2.1, h.2.2.2 (by decide)⟩

/-- C2: `parse_build_file` never raises to the caller (it is total on every
file outcome), and on a missing file, malformed markup or any other read error
it returns a result whose `error` field is a non-null string and whose
`targets` list is empty. -/
theorem C2_parse_error_soft (bf : String) (fc : FileContent)
    (h : fc.isErrorCase = true) :
    (parse_build_file bf fc).error.isSome = true ∧
    (parse_build_file bf fc).targets = [] := by
  cases fc with
  | missing => exact ⟨rfl, rfl⟩
  | malformed e => exact ⟨rfl, rfl⟩
  | readError e => exact ⟨rfl, rfl⟩
  | wellFormed root => simp [FileContent.isErrorCase] at h

/-- Witness for C2 on a concrete nonexistent path. -/
theorem C2_parse_error_soft_witness :
    (FileContent.missing.isErrorCase = true) ∧
    (parse_build_file "C:\\no\\such\\build.xml" .missing).error.isSome = true ∧
    (parse_build_file "C:\\no\\such\\build.xml" .missing).targets = [] := by
  refine ⟨rfl, ?_⟩
  exact C2_parse_error_soft "C:\\no\\such\\build.xml" .missing rfl

/-- C10: for every input, the result of `parse_build_file` has `targets` and
`descriptions` lists of exactly equal length. -/
theorem C10_parallel_lists (bf : String) (fc : FileContent) :
    (parse_build_file bf fc).targets.length =
      (parse_build_file bf fc).descriptions.length := by
  cases fc with
  | missing => rfl
  | malformed e => rfl
  | readError e => rfl
  | wellFormed root => exact collectTargets_lengths root.targets

end AntBuildMenu
